import Mathlib

/-!
Shallow embedding of the flight-extraction pipeline of
`flight_search_automation.py` (class `FlightScraper`), together with the
mock catalog and the orchestrating `search_flights` fallback logic.

Strings are modelled as Lean `String`; the Python `re` patterns used by the
field extractors are embedded as deterministic scanners over `List Char`.
Each pattern here is simple enough that Python's leftmost, greedy,
backtracking search collapses to a deterministic scan: whenever the engine
would backtrack (giving back `\s*` characters, or dropping an optional
hyphen), the continuation is guaranteed to fail as well, so the greedy
choice is the only possible outcome.  Character classes are modelled on
their ASCII fragment, which covers every character the program's patterns
and data involve.
-/

namespace FlightSearch

/-- ASCII fragment of Python's `\s` character class. -/
def pyIsSpace (c : Char) : Bool :=
  c == ' ' || c == '\t' || c == '\n' || c == '\r' || c == '\x0b' || c == '\x0c'

/-! ## Time extraction: pattern `(\d{1,2}):(\d{2})` -/

/-- Attempt the pattern `(\d{1,2}):(\d{2})` at the head of `l`
(Python tries two leading digits first — greedy `\d{1,2}` — then one).
On success, return the matched text (which the source re-emits verbatim as
`"{group1}:{group2}"`) and the remainder of the input after the match. -/
def matchTimeAt : List Char → Option (String × List Char)
  | c1 :: c2 :: c3 :: c4 :: c5 :: rest =>
    if c1.isDigit && c2.isDigit && c3 == ':' && c4.isDigit && c5.isDigit then
      some (String.mk [c1, c2, c3, c4, c5], rest)
    else if c1.isDigit && c2 == ':' && c3.isDigit && c4.isDigit then
      some (String.mk [c1, c2, c3, c4], c5 :: rest)
    else none
  | [c1, c2, c3, c4] =>
    if c1.isDigit && c2 == ':' && c3.isDigit && c4.isDigit then
      some (String.mk [c1, c2, c3, c4], [])
    else none
  | _ => none

/-- `re.search` for the time pattern: first position (left to right) where
`matchTimeAt` succeeds. -/
def searchTime : List Char → Option String
  | [] => none
  | c :: cs =>
    match matchTimeAt (c :: cs) with
    | some (m, _) => some m
    | none => searchTime cs

/-- `re.findall` for the time pattern: all non-overlapping matches, left to
right; after a match the scan resumes at the first character past it.
The fuel argument (instantiated with the input length) makes the
recursion structural. -/
def findallTimeAux : Nat → List Char → List String
  | 0, _ => []
  | _ + 1, [] => []
  | fuel + 1, c :: cs =>
    match matchTimeAt (c :: cs) with
    | some (m, rest) => m :: findallTimeAux fuel rest
    | none => findallTimeAux fuel cs

/-- `re.findall(r"(\d{1,2}):(\d{2})", ·)` over a character list. -/
def findallTime (l : List Char) : List String :=
  findallTimeAux l.length l

/-- `FlightScraper._extract_departure`: the first time match in the text,
or the sentinel. -/
def extract_departure (text : String) : String :=
  match searchTime text.data with
  | some m => m
  | none => "N/A"

/-- `FlightScraper._extract_arrival`: the second time match in the text
when at least two are present, or the sentinel. -/
def extract_arrival (text : String) : String :=
  match findallTime text.data with
  | _ :: m :: _ => m
  | _ => "N/A"

/-! ## Flight number: pattern `([A-Z]{2})\s*[-]?\s*(\d{3,4})` -/

/-- Attempt the flight-number pattern at the head of `l`: two ASCII
uppercase letters, greedy whitespace, an optional hyphen, greedy
whitespace, then greedily four digits (falling back to three).  On
success, return the source's re-emission `"{group1}-{group2}"`.
Backtracking cannot rescue a failed greedy choice here: whitespace is
neither a hyphen nor a digit, and declining a present hyphen leaves a
non-digit in front of `\d{3,4}`. -/
def matchFlightNumAt : List Char → Option String
  | c1 :: c2 :: rest =>
    if c1.isUpper && c2.isUpper then
      let r1 := rest.dropWhile pyIsSpace
      let r2 := match r1 with
        | '-' :: r => r.dropWhile pyIsSpace
        | _ => r1
      let ds := r2.takeWhile Char.isDigit
      if 4 ≤ ds.length then
        some (String.mk [c1, c2] ++ "-" ++ String.mk (ds.take 4))
      else if ds.length = 3 then
        some (String.mk [c1, c2] ++ "-" ++ String.mk ds)
      else none
    else none
  | _ => none

/-- `re.search` for the flight-number pattern. -/
def searchFlightNum : List Char → Option String
  | [] => none
  | c :: cs =>
    match matchFlightNumAt (c :: cs) with
    | some m => some m
    | none => searchFlightNum cs

/-- `FlightScraper._extract_flight_number`. -/
def extract_flight_number (text : String) : String :=
  (searchFlightNum text.data).getD "N/A"

/-! ## Price: pattern `₹\s*([\d,]+)` -/

/-- Attempt the price pattern at the head of `l`: the rupee sign, greedy
whitespace, then a non-empty greedy run of digits and commas.  On success,
return the source's re-emission `"₹{group1}"`. -/
def matchPriceAt : List Char → Option String
  | c :: rest =>
    if c == '₹' then
      let grp := (rest.dropWhile pyIsSpace).takeWhile (fun ch => ch.isDigit || ch == ',')
      if grp.isEmpty then none else some (String.mk ('₹' :: grp))
    else none
  | [] => none

/-- `re.search` for the price pattern. -/
def searchPrice : List Char → Option String
  | [] => none
  | c :: cs =>
    match matchPriceAt (c :: cs) with
    | some m => some m
    | none => searchPrice cs

/-- `FlightScraper._extract_price`. -/
def extract_price (text : String) : String :=
  (searchPrice text.data).getD "N/A"

/-! ## Airline extraction -/

/-- The closed carrier list of `_extract_airline`, in source order. -/
def airlines : List String :=
  ["IndiGo", "Air India", "SpiceJet", "GoAir", "Vistara", "AirAsia"]

/-- Python's substring operator `needle in haystack` on character lists:
`needle` occurs contiguously somewhere in `haystack`. -/
def containsSub (needle : List Char) : List Char → Bool
  | [] => needle.isEmpty
  | c :: rest => needle.isPrefixOf (c :: rest) || containsSub needle rest

/-- Python's `str.lower()` on the ASCII range, over the character list. -/
def pyLower (l : List Char) : List Char :=
  l.map Char.toLower

/-- Python's `airline.lower() in text.lower()`: case-insensitive substring
test, via lowercasing both sides. -/
def airlineMatches (airline text : String) : Bool :=
  containsSub (pyLower airline.data) (pyLower text.data)

/-- The loop of `_extract_airline`: first carrier in list order whose
lowercased name is a substring of the lowercased text. -/
def findAirlineAux (text : String) : List String → String
  | [] => "N/A"
  | a :: rest => if airlineMatches a text then a else findAirlineAux text rest

/-- `FlightScraper._extract_airline`. -/
def extract_airline (text : String) : String :=
  findAirlineAux text airlines

/-! ## Data model -/

/-- The flight dict assembled in `_extract_flights_from_dom` and
`_get_mock_flights`, with the source's key names. -/
structure FlightRecord where
  airline : String
  flight_number : String
  departure : String
  arrival : String
  price : String
  origin : String
  destination : String
  searchdatetime : String
deriving DecidableEq, Repr

/-- A template entry of `MOCK_FLIGHTS`: a flight dict before `origin`,
`destination` and `searchdatetime` are injected. -/
structure MockFlight where
  airline : String
  flight_number : String
  departure : String
  arrival : String
  price : String
deriving DecidableEq, Repr

/-- The ten template records of `MOCK_FLIGHTS[("Bangalore", "Delhi")]`,
in source order. -/
def mockBangaloreDelhi : List MockFlight :=
  [⟨"IndiGo", "6E-123", "06:30", "09:10", "₹5,450"⟩,
   ⟨"Air India", "AI-504", "07:15", "09:55", "₹6,120"⟩,
   ⟨"SpiceJet", "SG-8256", "08:45", "11:25", "₹4,890"⟩,
   ⟨"GoAir", "G8-456", "09:20", "12:00", "₹5,100"⟩,
   ⟨"Vistara", "UK-834", "10:00", "12:40", "₹7,200"⟩,
   ⟨"AirAsia", "I5-234", "12:15", "14:55", "₹3,450"⟩,
   ⟨"IndiGo", "6E-567", "14:30", "17:10", "₹5,890"⟩,
   ⟨"Air India", "AI-608", "16:00", "18:40", "₹6,450"⟩,
   ⟨"SpiceJet", "SG-8890", "17:45", "20:25", "₹5,200"⟩,
   ⟨"IndiGo", "6E-901", "19:15", "21:55", "₹6,100"⟩]

/-- The module-level `MOCK_FLIGHTS` dict, as an association list from
`(origin, destination)` keys to template records. -/
def MOCK_FLIGHTS : List ((String × String) × List MockFlight) :=
  [(("Bangalore", "Delhi"), mockBangaloreDelhi)]

/-- Python's `dict.get(key, [])` over the association-list rendering of
the mock dict: the value at the first matching key, or `[]`. -/
def dictGet (key : String × String) :
    List ((String × String) × List MockFlight) → List MockFlight
  | [] => []
  | (k, v) :: rest => if k = key then v else dictGet key rest

/-- `FlightScraper._get_mock_flights`: `MOCK_FLIGHTS.get((origin,
destination), [])`, then each template spread into a full record with
`origin`, `destination` and the (single) capture timestamp injected.  The
timestamp, `datetime.utcnow().isoformat() + "Z"` in the source, is passed
in as the parameter `ts`. -/
def get_mock_flights (origin destination ts : String) : List FlightRecord :=
  let mock_data := dictGet (origin, destination) MOCK_FLIGHTS
  mock_data.map (fun f =>
    { airline := f.airline, flight_number := f.flight_number,
      departure := f.departure, arrival := f.arrival, price := f.price,
      origin := origin, destination := destination, searchdatetime := ts })

/-! ## DOM extraction -/

/-- The flight dict built for one element text in
`_extract_flights_from_dom`, lines 217–226. -/
def assembleFlight (origin destination ts text : String) : FlightRecord :=
  { airline := extract_airline text,
    flight_number := extract_flight_number text,
    departure := extract_departure text,
    arrival := extract_arrival text,
    price := extract_price text,
    origin := origin, destination := destination, searchdatetime := ts }

/-- The retention test of lines 228–230: keep a record only if its
departure or its price is not the sentinel. -/
def keepFlight (f : FlightRecord) : Bool :=
  f.departure != "N/A" || f.price != "N/A"

/-- The per-selector body of `_extract_flights_from_dom`: assemble a
record from each of the first 15 element texts and keep those passing the
retention test (the source's append-under-condition loop, rendered as
`map` then `filter`). -/
def retainedRecords (texts : List String) (origin destination ts : String) :
    List FlightRecord :=
  ((texts.take 15).map (assembleFlight origin destination ts)).filter keepFlight

/-- The selector strings of lines 200–206, in priority order. -/
def selectors : List String :=
  ["div[class*=\x27flight\x27]",
   "div[class*=\x27result\x27]",
   ".flight-card",
   ".result-item",
   "[data-testid*=\x27flight\x27]"]

/-- The selector loop of `_extract_flights_from_dom` (lines 208–237) over
a page modelled as a pure map from selector string to the texts of its
matching elements (so the `except: continue` arm is never taken).  Besides
the returned flight list, the second component records which selectors
were actually queried, in order: the loop queries each selector until one
yields a non-empty retained-record list, and only then returns. -/
def domScanAux (page : String → List String) (origin destination ts : String) :
    List String → List FlightRecord × List String
  | [] => ([], [])
  | sel :: rest =>
    let elements := page sel
    if elements.isEmpty then
      let r := domScanAux page origin destination ts rest
      (r.1, sel :: r.2)
    else
      let flights := retainedRecords elements origin destination ts
      if flights.isEmpty then
        let r := domScanAux page origin destination ts rest
        (r.1, sel :: r.2)
      else (flights, [sel])

/-- `FlightScraper._extract_flights_from_dom`: the flight list produced by
the selector loop (empty when no selector yields retained records). -/
def extract_flights_from_dom (page : String → List String)
    (origin destination ts : String) : List FlightRecord :=
  (domScanAux page origin destination ts selectors).1

/-- The selectors `_extract_flights_from_dom` actually queries on `page`. -/
def queried_selectors (page : String → List String)
    (origin destination ts : String) : List String :=
  (domScanAux page origin destination ts selectors).2

/-! ## Orchestrator -/

/-- `FlightScraper.search_flights` (lines 120–137).  The outcome of
`await self._scrape_real_flights(...)` is passed in as `scrape`: `Except.ok
flights` models a normal return, `Except.error e` models an exception
raised during scraping or extraction (caught by the `except` clause).
Every path returns a plain list — the operation never re-raises. -/
def search_flights (use_mock : Bool) (scrape : Except String (List FlightRecord))
    (origin destination ts : String) : List FlightRecord :=
  if use_mock then get_mock_flights origin destination ts
  else
    match scrape with
    | Except.ok flights =>
      if flights.isEmpty then get_mock_flights origin destination ts else flights
    | Except.error _ => get_mock_flights origin destination ts

/-! ## Spec-side notions -/

/-- Modelled from the spec: a valid 24-hour `HH:MM` string — two-digit
hour `00`–`23`, colon, two-digit minute `00`–`59` (claim C7's reading of
"`HH:MM` 24-hour strings"). -/
def isValid24hTime (s : String) : Bool :=
  match s.data with
  | [h1, h2, ':', m1, m2] =>
    h1.isDigit && h2.isDigit && m1.isDigit && m2.isDigit &&
    decide ((h1.toNat - 48) * 10 + (h2.toNat - 48) < 24) &&
    decide ((m1.toNat - 48) * 10 + (m2.toNat - 48) < 60)
  | _ => false

/-- The shape the time extractors actually guarantee: one or two digits,
a colon, two digits — with no range check on hour or minute. -/
def isTimeShape (s : String) : Bool :=
  match s.data with
  | [a, b, ':', c, d] => a.isDigit && b.isDigit && c.isDigit && d.isDigit
  | [a, ':', c, d] => a.isDigit && c.isDigit && d.isDigit
  | _ => false

/-- Erase the timestamp field, for comparing two extraction runs. -/
def stripTimestamp (r : FlightRecord) : FlightRecord :=
  { r with searchdatetime := "" }

/-! ## Concrete page fixtures -/

/-- A page on which the first selector matches one element whose text
yields only sentinel departure and price, while the second selector
matches an element with extractable data. -/
def page1 : String → List String := fun sel =>
  if sel = "div[class*=\x27flight\x27]" then ["sponsored banner"]
  else if sel = "div[class*=\x27result\x27]" then ["IndiGo 06:30 09:10 ₹5,450"]
  else []

/-- A page on which the first selector already yields a retained record. -/
def page2 : String → List String := fun sel =>
  if sel = "div[class*=\x27flight\x27]" then ["IndiGo 06:30 09:10 ₹5,450"]
  else ["IndiGo 07:15 09:55 ₹6,120"]

/-- A page on which every selector matches one element with extractable
data. -/
def page3 : String → List String := fun _ =>
  ["IndiGo 06:30 09:10 ₹5,450"]

/-! ## Helper lemmas -/

theorem findallTimeAux_head (fuel : Nat) :
    ∀ l : List Char, l.length ≤ fuel →
      (findallTimeAux fuel l).head? = searchTime l := by
  induction fuel with
  | zero =>
    intro l hl
    have h0 : l = [] := List.length_eq_zero.mp (Nat.le_zero.mp hl)
    subst h0
    rfl
  | succ n ih =>
    intro l hl
    cases l with
    | nil => rfl
    | cons c cs =>
      rw [findallTimeAux, searchTime]
      cases hm : matchTimeAt (c :: cs) with
      | some p => cases p with | mk m rest => simp
      | none =>
        simp only
        exact ih cs (Nat.le_of_succ_le_succ (by simpa using hl))

theorem matchTimeAt_shape : ∀ {l : List Char} {m : String} {rest : List Char},
    matchTimeAt l = some (m, rest) → isTimeShape m = true := by
  intro l m rest h
  match l with
  | [] => simp [matchTimeAt] at h
  | [c1] => simp [matchTimeAt] at h
  | [c1, c2] => simp [matchTimeAt] at h
  | [c1, c2, c3] => simp [matchTimeAt] at h
  | [c1, c2, c3, c4] =>
    simp only [matchTimeAt] at h
    split_ifs at h with hc
    · injection h with h2
      injection h2 with hm hr
      subst hm
      simp only [Bool.and_eq_true, beq_iff_eq] at hc
      obtain ⟨⟨⟨h1, h2'⟩, h3⟩, h4⟩ := hc
      subst h2'
      simp [isTimeShape, h1, h3, h4]
  | c1 :: c2 :: c3 :: c4 :: c5 :: r =>
    simp only [matchTimeAt] at h
    split_ifs at h with hc hc2
    · injection h with h2
      injection h2 with hm hr
      subst hm
      simp only [Bool.and_eq_true, beq_iff_eq] at hc
      obtain ⟨⟨⟨⟨h1, h2'⟩, h3⟩, h4⟩, h5⟩ := hc
      subst h3
      simp [isTimeShape, h1, h2', h4, h5]
    · injection h with h2
      injection h2 with hm hr
      subst hm
      simp only [Bool.and_eq_true, beq_iff_eq] at hc2
      obtain ⟨⟨⟨h1, h2'⟩, h3⟩, h4⟩ := hc2
      subst h2'
      simp [isTimeShape, h1, h3, h4]

theorem searchTime_shape : ∀ (l : List Char) (m : String),
    searchTime l = some m → isTimeShape m = true := by
  intro l
  induction l with
  | nil => intro m h; simp [searchTime] at h
  | cons c cs ih =>
    intro m h
    rw [searchTime] at h
    cases hm : matchTimeAt (c :: cs) with
    | some p =>
      rw [hm] at h
      cases p with | mk mm rr =>
      simp only [Option.some.injEq] at h
      subst h
      exact matchTimeAt_shape hm
    | none =>
      rw [hm] at h
      exact ih m h

theorem findallTimeAux_shape : ∀ (fuel : Nat) (l : List Char) (m : String),
    m ∈ findallTimeAux fuel l → isTimeShape m = true := by
  intro fuel
  induction fuel with
  | zero => intro l m h; simp [findallTimeAux] at h
  | succ n ih =>
    intro l m h
    cases l with
    | nil => simp [findallTimeAux] at h
    | cons c cs =>
      rw [findallTimeAux] at h
      cases hm : matchTimeAt (c :: cs) with
      | some p =>
        rw [hm] at h
        cases p with | mk mm rr =>
        simp only [List.mem_cons] at h
        rcases h with rfl | h
        · exact matchTimeAt_shape hm
        · exact ih rr m h
      | none =>
        rw [hm] at h
        exact ih cs m h


/-- C6: if the text contains exactly one occurrence of the time pattern
`(\\d{1,2}):(\\d{2})` (occurrences being the regex engine's
non-overlapping matches, left to right), departure extraction returns that
occurrence and arrival extraction returns the sentinel; with two or more
occurrences, departure extraction returns the first and arrival extraction
returns the second verbatim. -/
theorem c6_time_extraction (text : String) :
    (∀ m : String, findallTime text.data = [m] →
      extract_departure text = m ∧ extract_arrival text = "N/A") ∧
    (∀ m₁ m₂ : String, ∀ rest : List String,
      findallTime text.data = m₁ :: m₂ :: rest →
      extract_departure text = m₁ ∧ extract_arrival text = m₂) := by
  have hhead : (findallTime text.data).head? = searchTime text.data :=
    findallTimeAux_head _ _ (Nat.le_refl _)
  constructor
  · intro m hm
    have hs : searchTime text.data = some m := by rw [← hhead, hm]; rfl
    constructor
    · rw [extract_departure, hs]
    · rw [extract_arrival, hm]
  · intro m₁ m₂ rest hm
    have hs : searchTime text.data = some m₁ := by rw [← hhead, hm]; rfl
    constructor
    · rw [extract_departure, hs]
    · rw [extract_arrival, hm]

/-- C6 witness: the two branches of `c6_time_extraction` at concrete
texts with one and with two time occurrences. -/
theorem c6_witness :
    (findallTime "dep 06:30".data = ["06:30"] ∧
      extract_departure "dep 06:30" = "06:30" ∧
      extract_arrival "dep 06:30" = "N/A") ∧
    (findallTime "06:30 to 09:10".data = ["06:30", "09:10"] ∧
      extract_departure "06:30 to 09:10" = "06:30" ∧
      extract_arrival "06:30 to 09:10" = "09:10") := by
  refine ⟨⟨by decide, ?_⟩, ⟨by decide, ?_⟩⟩
  · exact (c6_time_extraction "dep 06:30").1 "06:30" (by decide)
  · exact (c6_time_extraction "06:30 to 09:10").2 "06:30" "09:10" [] (by decide)

/-- C7 counterexample: the time extractors do not return valid 24-hour
times: on "99:99" departure extraction returns "99:99" — neither the
sentinel nor a valid time of day — and arrival extraction likewise
returns the invalid "88:77" when it is the second match. -/
theorem c7_counterexample :
    extract_departure "99:99" = "99:99" ∧
    isValid24hTime "99:99" = false ∧
    ("99:99" : String) ≠ "N/A" ∧
    extract_arrival "99:99 88:77" = "88:77" ∧
    isValid24hTime "88:77" = false := by decide

/-- C7 amended: the departure and arrival extractors return the sentinel
or a string of the shape one-or-two digits, colon, two digits; hour and
minute values are not range-checked, so the result need not be a valid
24-hour time. -/
theorem c7_amended (text : String) :
    (extract_departure text = "N/A" ∨
      isTimeShape (extract_departure text) = true) ∧
    (extract_arrival text = "N/A" ∨
      isTimeShape (extract_arrival text) = true) := by
  constructor
  · cases hs : searchTime text.data with
    | none => left; rw [extract_departure, hs]
    | some m =>
      right
      rw [extract_departure, hs]
      exact searchTime_shape _ _ hs
  · cases hf : findallTime text.data with
    | nil => left; rw [extract_arrival, hf]
    | cons a t =>
      cases t with
      | nil => left; rw [extract_arrival, hf]
      | cons b t2 =>
        right
        rw [extract_arrival, hf]
        have hb : b ∈ findallTime text.data := by
          rw [hf]; exact List.mem_cons_of_mem _ (List.mem_cons_self _ _)
        exact findallTimeAux_shape _ _ _ hb


/-- Every record in the flight list of the selector loop passed the
retention test. -/
theorem mem_domScanAux_keep :
    ∀ (sels : List String) (page : String → List String)
      (o d ts : String) (r : FlightRecord),
      r ∈ (domScanAux page o d ts sels).1 → keepFlight r = true := by
  intro sels
  induction sels with
  | nil => intro page o d ts r h; simp [domScanAux] at h
  | cons s rest ih =>
    intro page o d ts r h
    rw [domScanAux] at h
    by_cases he : (page s).isEmpty
    · simp only [he, if_true] at h
      exact ih page o d ts r h
    · simp only [he, if_false] at h
      by_cases hf : (retainedRecords (page s) o d ts).isEmpty
      · simp only [hf, if_true] at h
        exact ih page o d ts r h
      · simp only [hf, if_false] at h
        exact (List.mem_filter.mp (by simpa [retainedRecords] using h)).2

/-- C4: every record produced by the DOM-extraction phase has a
non-sentinel departure or a non-sentinel price. -/
theorem c4_retention (page : String → List String)
    (origin destination ts : String) (r : FlightRecord)
    (h : r ∈ extract_flights_from_dom page origin destination ts) :
    r.departure ≠ "N/A" ∨ r.price ≠ "N/A" := by
  have hk := mem_domScanAux_keep selectors page origin destination ts r h
  simpa [keepFlight, Bool.or_eq_true, bne_iff_ne] using hk

/-- C4 witness: a concrete record extracted from `page3`, on which
`c4_retention` yields the disjunction. -/
theorem c4_witness :
    (⟨"IndiGo", "N/A", "06:30", "09:10", "₹5,450",
      "Bangalore", "Delhi", "T"⟩ : FlightRecord) ∈
      extract_flights_from_dom page3 "Bangalore" "Delhi" "T" ∧
    ((⟨"IndiGo", "N/A", "06:30", "09:10", "₹5,450",
      "Bangalore", "Delhi", "T"⟩ : FlightRecord).departure ≠ "N/A" ∨
     (⟨"IndiGo", "N/A", "06:30", "09:10", "₹5,450",
      "Bangalore", "Delhi", "T"⟩ : FlightRecord).price ≠ "N/A") := by
  have hmem : (⟨"IndiGo", "N/A", "06:30", "09:10", "₹5,450",
      "Bangalore", "Delhi", "T"⟩ : FlightRecord) ∈
      extract_flights_from_dom page3 "Bangalore" "Delhi" "T" := by decide
  exact ⟨hmem, c4_retention page3 "Bangalore" "Delhi" "T" _ hmem⟩


/-- The airline loop returns the sentinel or a member of the scanned
list. -/
theorem findAirlineAux_closed (text : String) : ∀ l : List String,
    findAirlineAux text l = "N/A" ∨ findAirlineAux text l ∈ l := by
  intro l
  induction l with
  | nil => left; rfl
  | cons a rest ih =>
    rw [findAirlineAux]
    cases h : airlineMatches a text with
    | true => right; simp
    | false =>
      simp only [Bool.false_eq_true, if_false]
      rcases ih with h1 | h1
      · left; exact h1
      · right; exact List.mem_cons_of_mem _ h1

/-- If no carrier in the list matches, the airline loop returns the
sentinel. -/
theorem findAirlineAux_notfound (text : String) : ∀ l : List String,
    (∀ a ∈ l, airlineMatches a text = false) → findAirlineAux text l = "N/A" := by
  intro l
  induction l with
  | nil => intro _; rfl
  | cons a rest ih =>
    intro hall
    rw [findAirlineAux]
    have ha := hall a (List.mem_cons_self _ _)
    simp only [ha, Bool.false_eq_true, if_false]
    exact ih (fun b hb => hall b (List.mem_cons_of_mem _ hb))

/-- The airline loop returns the first matching carrier: if nothing
before `a` matches and `a` does, the result is `a`. -/
theorem findAirlineAux_first (text : String) :
    ∀ (l₁ : List String) (a : String) (l₂ : List String),
      (∀ b ∈ l₁, airlineMatches b text = false) → airlineMatches a text = true →
      findAirlineAux text (l₁ ++ a :: l₂) = a := by
  intro l₁
  induction l₁ with
  | nil =>
    intro a l₂ _ ha
    rw [List.nil_append, findAirlineAux]
    simp [ha]
  | cons b rest ih =>
    intro a l₂ hb ha
    rw [List.cons_append, findAirlineAux]
    have hbf := hb b (List.mem_cons_self _ _)
    simp only [hbf, Bool.false_eq_true, if_false]
    exact ih a l₂ (fun x hx => hb x (List.mem_cons_of_mem _ hx)) ha

/-- C8: the airline extractor returns the sentinel or one of the six
listed carriers; it returns the sentinel exactly when no listed carrier
occurs case-insensitively in the text, and otherwise the first carrier in
list order that occurs. -/
theorem c8_airline (text : String) :
    (extract_airline text = "N/A" ∨ extract_airline text ∈ airlines) ∧
    ((∀ a ∈ airlines, airlineMatches a text = false) →
      extract_airline text = "N/A") ∧
    (∀ (l₁ : List String) (a : String) (l₂ : List String),
      airlines = l₁ ++ a :: l₂ →
      (∀ b ∈ l₁, airlineMatches b text = false) →
      airlineMatches a text = true →
      extract_airline text = a) := by
  refine ⟨findAirlineAux_closed text airlines,
          findAirlineAux_notfound text airlines, ?_⟩
  intro l₁ a l₂ hsplit hnone ha
  rw [extract_airline, hsplit]
  exact findAirlineAux_first text l₁ a l₂ hnone ha

/-- C8 witness: ambiguous text matching Air India but not the
earlier-listed IndiGo yields Air India, and carrier-free text yields the
sentinel, both via `c8_airline`. -/
theorem c8_witness :
    airlines = ["IndiGo"] ++ "Air India" ::
      ["SpiceJet", "GoAir", "Vistara", "AirAsia"] ∧
    airlineMatches "IndiGo" "flying with AIR INDIA and vistara" = false ∧
    airlineMatches "Air India" "flying with AIR INDIA and vistara" = true ∧
    extract_airline "flying with AIR INDIA and vistara" = "Air India" ∧
    extract_airline "no carriers here" = "N/A" := by
  refine ⟨rfl, by decide, by decide, ?_, ?_⟩
  · exact (c8_airline "flying with AIR INDIA and vistara").2.2
      ["IndiGo"] "Air India" ["SpiceJet", "GoAir", "Vistara", "AirAsia"]
      rfl (by decide) (by decide)
  · exact (c8_airline "no carriers here").2.1 (by decide)


/-- C9: record assembly over the same captured element texts with the
same origin and destination is deterministic: two runs differing only in
the captured timestamp produce lists identical field-for-field except for
`searchdatetime`. -/
theorem c9_determinism (texts : List String) (origin destination ts₁ ts₂ : String) :
    (retainedRecords texts origin destination ts₁).map stripTimestamp =
      (retainedRecords texts origin destination ts₂).map stripTimestamp ∧
    (retainedRecords texts origin destination ts₁).length =
      (retainedRecords texts origin destination ts₂).length := by
  have hmap : (retainedRecords texts origin destination ts₁).map stripTimestamp =
      (retainedRecords texts origin destination ts₂).map stripTimestamp := by
    unfold retainedRecords
    generalize texts.take 15 = l
    induction l with
    | nil => rfl
    | cons t l ih =>
      simp only [List.map_cons, List.filter_cons]
      have hk : keepFlight (assembleFlight origin destination ts₂ t) =
          keepFlight (assembleFlight origin destination ts₁ t) := rfl
      rw [hk]
      cases hkc : keepFlight (assembleFlight origin destination ts₁ t) with
      | false => simpa using ih
      | true =>
        simp only [if_true, List.map_cons]
        rw [show stripTimestamp (assembleFlight origin destination ts₁ t) =
            stripTimestamp (assembleFlight origin destination ts₂ t) from rfl, ih]
  refine ⟨hmap, ?_⟩
  have := congrArg List.length hmap
  simpa using this


/-- C3: a scraping exception is caught at the `search_flights` boundary
and the mock-catalog lookup is returned instead; for a route with no mock
entry, such as Chennai to Mumbai, the result is the empty list, not an
error.  (In this embedding `search_flights` returns a plain list for every
input, so no exception ever propagates past it.) -/
theorem c3_error_fallback (e origin destination ts : String) :
    search_flights false (Except.error e) origin destination ts =
      get_mock_flights origin destination ts ∧
    search_flights true (Except.error e) origin destination ts =
      get_mock_flights origin destination ts ∧
    get_mock_flights "Chennai" "Mumbai" ts = [] ∧
    search_flights false (Except.error e) "Chennai" "Mumbai" ts = [] :=
  ⟨rfl, rfl, rfl, rfl⟩

/-- C5: for the Bangalore-to-Delhi query with a scan yielding zero
candidates, `search_flights` returns exactly the ten mock-catalog
templates for that route in catalog order, each augmented with the origin,
the destination and one shared timestamp. -/
theorem c5_mock_fallback (tsScan ts : String) :
    search_flights false
        (Except.ok (extract_flights_from_dom (fun _ => []) "Bangalore" "Delhi" tsScan))
        "Bangalore" "Delhi" ts =
      mockBangaloreDelhi.map (fun f =>
        { airline := f.airline, flight_number := f.flight_number,
          departure := f.departure, arrival := f.arrival, price := f.price,
          origin := "Bangalore", destination := "Delhi", searchdatetime := ts }) ∧
    (search_flights false
        (Except.ok (extract_flights_from_dom (fun _ => []) "Bangalore" "Delhi" tsScan))
        "Bangalore" "Delhi" ts).length = 10 ∧
    (search_flights false
        (Except.ok (extract_flights_from_dom (fun _ => []) "Bangalore" "Delhi" tsScan))
        "Bangalore" "Delhi" ts).map (fun r => r.searchdatetime) =
      List.replicate 10 ts :=
  ⟨rfl, rfl, rfl⟩

/-- C10: the mock catalog has exactly the one key Bangalore-to-Delhi, and
the fallback lookup returns the empty list for every other ordered pair. -/
theorem c10_mock_catalog :
    MOCK_FLIGHTS.map Prod.fst = [("Bangalore", "Delhi")] ∧
    ∀ origin destination ts : String,
      (origin, destination) ≠ ("Bangalore", "Delhi") →
      get_mock_flights origin destination ts = [] := by
  refine ⟨rfl, ?_⟩
  intro origin destination ts h
  have hne : (("Bangalore", "Delhi") : String × String) ≠ (origin, destination) :=
    fun heq => h heq.symm
  rw [get_mock_flights]
  rw [show dictGet (origin, destination) MOCK_FLIGHTS = [] from ?_]
  · rfl
  · rw [MOCK_FLIGHTS, dictGet, if_neg hne]
    rfl

/-- C10 witness: the reversed route and a lower-cased spelling both miss
the catalog, via `c10_mock_catalog`. -/
theorem c10_witness :
    (("Delhi", "Bangalore") : String × String) ≠ ("Bangalore", "Delhi") ∧
    get_mock_flights "Delhi" "Bangalore" "T" = [] ∧
    (("bangalore", "delhi") : String × String) ≠ ("Bangalore", "Delhi") ∧
    get_mock_flights "bangalore" "delhi" "T" = [] :=
  ⟨by decide, c10_mock_catalog.2 "Delhi" "Bangalore" "T" (by decide),
   by decide, c10_mock_catalog.2 "bangalore" "delhi" "T" (by decide)⟩

/-- C2 counterexample: the claim fails at the text "6E 123" (and at
"6E-123" and "6E123"): the pattern requires two uppercase letters, "6E"
begins with a digit, so the extractor returns the sentinel, not "6E-123". -/
theorem c2_counterexample :
    extract_flight_number "6E 123" ≠ "6E-123" ∧
    extract_flight_number "6E 123" = "N/A" ∧
    extract_flight_number "6E-123" = "N/A" ∧
    extract_flight_number "6E123" = "N/A" := by decide

/-- C2 amended: a flight code of two uppercase letters is normalized with
a hyphen as claimed — "AI 504", "AI-504" and "AI504" all yield "AI-504" —
but "6E" is digit-plus-letter, so the texts "6E 123", "6E-123" and
"6E123" all yield the sentinel. -/
theorem c2_amended :
    extract_flight_number "6E 123" = "N/A" ∧
    extract_flight_number "6E-123" = "N/A" ∧
    extract_flight_number "6E123" = "N/A" ∧
    extract_flight_number "AI 504" = "AI-504" ∧
    extract_flight_number "AI-504" = "AI-504" ∧
    extract_flight_number "AI504" = "AI-504" := by decide


/-- On the empty element list the per-selector body retains nothing. -/
theorem retainedRecords_nil (origin destination ts : String) :
    retainedRecords [] origin destination ts = [] := rfl

/-- In the selector loop, once a selector's elements yield a non-empty
retained-record list, no selector after it (in a duplicate-free selector
list) is queried. -/
theorem domScanAux_no_later (page : String → List String) (o d ts : String) :
    ∀ (sels : List String), sels.Nodup →
      ∀ i j (hi : i < sels.length) (hj : j < sels.length), i < j →
      retainedRecords (page (sels.get ⟨i, hi⟩)) o d ts ≠ [] →
      sels.get ⟨j, hj⟩ ∉ (domScanAux page o d ts sels).2 := by
  intro sels
  induction sels with
  | nil => intro _ i j hi hj; exact absurd hj (Nat.not_lt_zero j)
  | cons s rest ih =>
    intro hnd i j hi hj hij hret
    have hs : s ∉ rest := (List.nodup_cons.mp hnd).1
    have hnd2 : rest.Nodup := (List.nodup_cons.mp hnd).2
    cases j with
    | zero => exact absurd hij (Nat.not_lt_zero i)
    | succ j2 =>
      have hj2 : j2 < rest.length := Nat.lt_of_succ_lt_succ hj
      have hgetj : (s :: rest).get ⟨j2 + 1, hj⟩ = rest.get ⟨j2, hj2⟩ := rfl
      rw [hgetj]
      have hmem : rest.get ⟨j2, hj2⟩ ∈ rest := List.get_mem rest j2 hj2
      cases i with
      | zero =>
        have hret0 : retainedRecords (page s) o d ts ≠ [] := hret
        have hne : (page s).isEmpty = false := by
          cases hp : page s with
          | nil => exact absurd (by rw [hp]; rfl) hret0
          | cons x xs => rfl
        have hfl : (retainedRecords (page s) o d ts).isEmpty = false := by
          cases hq : retainedRecords (page s) o d ts with
          | nil => exact absurd hq hret0
          | cons x xs => rfl
        rw [domScanAux]
        simp only [hne, hfl, Bool.false_eq_true, if_false]
        intro hin
        rcases List.mem_singleton.mp hin with heq
        exact hs (heq ▸ hmem)
      | succ i2 =>
        have hi2 : i2 < rest.length := Nat.lt_of_succ_lt_succ hi
        have hreti : retainedRecords (page (rest.get ⟨i2, hi2⟩)) o d ts ≠ [] := hret
        have hrec := ih hnd2 i2 j2 hi2 hj2 (Nat.lt_of_succ_lt_succ hij) hreti
        rw [domScanAux]
        by_cases hne : (page s).isEmpty
        · simp only [hne, if_true]
          intro hin
          rcases List.mem_cons.mp hin with heq | hin2
          · exact hs (heq ▸ hmem)
          · exact hrec hin2
        · simp only [hne, if_false]
          by_cases hfl : (retainedRecords (page s) o d ts).isEmpty
          · simp only [hfl, if_true]
            intro hin
            rcases List.mem_cons.mp hin with heq | hin2
            · exact hs (heq ▸ hmem)
            · exact hrec hin2
          · simp only [hfl, if_false]
            intro hin
            rcases List.mem_singleton.mp hin with heq
            exact hs (heq ▸ hmem)

/-- C1 counterexample: on `page1` the first selector yields a non-empty
element set (whose only assembled record fails retention), yet the
strictly later second selector is still queried — refuting the claim that
an element-yielding strategy always stops the chain. -/
theorem c1_counterexample :
    page1 (selectors.get ⟨0, by decide⟩) ≠ [] ∧
    retainedRecords (page1 (selectors.get ⟨0, by decide⟩))
      "Bangalore" "Delhi" "T" = [] ∧
    selectors.get ⟨1, by decide⟩ ∈
      queried_selectors page1 "Bangalore" "Delhi" "T" := by decide

/-- C1 amended: the extraction pipeline tries the five selection
strategies in priority order and stops at the first strategy whose
elements yield at least one record surviving the retention filter; once
such a strategy is found, no later strategy is queried.  (A strategy
yielding elements whose records are all filtered out does not stop the
chain.) -/
theorem c1_amended (page : String → List String) (origin destination ts : String)
    (i j : Nat) (hi : i < selectors.length) (hj : j < selectors.length)
    (hij : i < j)
    (hret : retainedRecords (page (selectors.get ⟨i, hi⟩)) origin destination ts ≠ []) :
    selectors.get ⟨j, hj⟩ ∉ queried_selectors page origin destination ts :=
  domScanAux_no_later page origin destination ts selectors (by decide)
    i j hi hj hij hret

/-- C1 amended witness: on `page2` the first selector already yields a
retained record, and `c1_amended` shows the second selector is not
queried. -/
theorem c1_amended_witness :
    retainedRecords (page2 (selectors.get ⟨0, by decide⟩))
      "Bangalore" "Delhi" "T" ≠ [] ∧
    selectors.get ⟨1, by decide⟩ ∉
      queried_selectors page2 "Bangalore" "Delhi" "T" :=
  ⟨by decide, c1_amended page2 "Bangalore" "Delhi" "T" 0 1
    (by decide) (by decide) (by decide) (by decide)⟩

end FlightSearch
